import Mathlib

/-!
Shallow embedding of the secrets-management core of the repository:
the `SecretsManager` singleton (src/lib/secrets.ts), the API-key gate
(src/lib/apiKeyAuth.ts) and the status endpoint
(src/app/api/secrets/route.ts).

JavaScript strings are modelled as Lean `String`; absent environment
variables and headers as `Option String`; thrown exceptions as
`Except String` carrying the error message; the mutable fields of the
singleton as an explicit `ManagerState` threaded through each
operation.  Because a TypeScript method can mutate `this` before
throwing, every fallible operation returns the possibly-updated state
alongside the `Except` result.
-/

/-- The `AppSecrets` interface of src/lib/secrets.ts. -/
structure AppSecrets where
  databaseUrl : String
  apiKey : String
  jwtSecret : String
  redisUrl : String
  stripeSecretKey : String
deriving Repr, DecidableEq

/-- The mutable fields of the `SecretsManager` singleton:
`private secrets: AppSecrets | null` and `private isInitialized`. -/
structure ManagerState where
  secrets : Option AppSecrets
  isInitialized : Bool
deriving Repr, DecidableEq

/-- The freshly constructed singleton: `secrets = null`,
`isInitialized = false`. -/
def initialManagerState : ManagerState :=
  { secrets := none, isInitialized := false }

/-- JavaScript falsiness for a possibly-absent string:
`undefined`, `null` and the empty string are falsy. -/
def jsFalsy : Option String → Bool
  | none => true
  | some s => s.isEmpty

/-- The local-mode environment: the five variables read by
`loadFromEnv` (each possibly unset). -/
structure LocalEnv where
  DATABASE_URL : Option String
  API_KEY : Option String
  JWT_SECRET : Option String
  REDIS_URL : Option String
  STRIPE_SECRET_KEY : Option String
deriving Repr, DecidableEq

/-- The record built by `loadFromEnv`:
`process.env.X || ''` yields the value when set and truthy,
otherwise the empty string. -/
def envRecord (e : LocalEnv) : AppSecrets :=
  { databaseUrl := e.DATABASE_URL.getD ("")
    apiKey := e.API_KEY.getD ("")
    jwtSecret := e.JWT_SECRET.getD ("")
    redisUrl := e.REDIS_URL.getD ("")
    stripeSecretKey := e.STRIPE_SECRET_KEY.getD ("") }

/-- `Object.entries(this.secrets)`: the five fields in the insertion
order of the object literal in `loadFromEnv`. -/
def secretsEntries (s : AppSecrets) : List (String × String) :=
  [("databaseUrl", s.databaseUrl),
   ("apiKey", s.apiKey),
   ("jwtSecret", s.jwtSecret),
   ("redisUrl", s.redisUrl),
   ("stripeSecretKey", s.stripeSecretKey)]

/-- The `missingSecrets` list of `loadFromEnv`: names of the entries
whose value is falsy (empty). -/
def missingSecrets (e : LocalEnv) : List String :=
  ((secretsEntries (envRecord e)).filter (fun p => p.2.isEmpty)).map Prod.fst

/-- The error message thrown by `loadFromEnv` when fields are missing. -/
def missingSecretsMsg (names : List String) : String :=
  "Missing required secrets: " ++ String.intercalate (", ") names

/-- `SecretsManager.loadFromEnv`: assigns `this.secrets` from the
environment (with empty-string defaults) and only afterwards validates,
throwing when any field is empty.  The assignment to `this.secrets`
happens before the validation throw, so the state keeps the record even
on failure. -/
def loadFromEnv (e : LocalEnv) (st : ManagerState) :
    Except String Unit × ManagerState :=
  let st1 : ManagerState := { st with secrets := some (envRecord e) }
  let missing := missingSecrets e
  if missing.isEmpty then (Except.ok (), st1)
  else (Except.error (missingSecretsMsg missing), st1)

/-- The remote-mode environment read by `loadFromGitHub`. -/
structure GithubEnv where
  GITHUB_TOKEN : Option String
  GITHUB_REPO_OWNER : Option String
  GITHUB_REPO_NAME : Option String
  GITHUB_SECRETS_PATH : Option String
deriving Repr, DecidableEq

/-- The outcome of the `octokit.repos.getContent` call together with
decoding and parsing of its payload:
`Except.error` is a thrown network error; `Except.ok none` is a
response without a (non-empty) `content` field; `Except.ok (some r)`
is a response whose base64 content decoded and parsed to the record
`r`, with `r = Except.error msg` when `JSON.parse` throws. -/
def GithubFetch : Type := Except String (Option (Except String AppSecrets))

/-- The message of the error thrown inside `loadFromGitHub` when a
required parameter is falsy: it always names all three parameters. -/
def githubMissingMsg : String :=
  "GitHub configuration missing. Please set GITHUB_TOKEN, GITHUB_REPO_OWNER, and GITHUB_REPO_NAME"

/-- The message of the error thrown when the response has no content. -/
def githubNoContentMsg : String :=
  "Failed to fetch secrets from GitHub"

/-- The message of the error rethrown by the catch-all in
`loadFromGitHub`. -/
def githubGenericMsg : String :=
  "Failed to initialize secrets from GitHub"

/-- The `try` block of `SecretsManager.loadFromGitHub`: check the three
required parameters (throwing a single message naming all three when
any is falsy), then inspect the fetch outcome and store the parsed
record on success. -/
def loadFromGitHubTry (g : GithubEnv) (fetch : GithubFetch)
    (st : ManagerState) : Except String Unit × ManagerState :=
  if jsFalsy g.GITHUB_TOKEN || jsFalsy g.GITHUB_REPO_OWNER
      || jsFalsy g.GITHUB_REPO_NAME then
    (Except.error githubMissingMsg, st)
  else
    match fetch with
    | Except.error e => (Except.error e, st)
    | Except.ok none => (Except.error githubNoContentMsg, st)
    | Except.ok (some (Except.error e)) => (Except.error e, st)
    | Except.ok (some (Except.ok r)) =>
        (Except.ok (), { st with secrets := some r })

/-- `SecretsManager.loadFromGitHub`: the whole `try` body wrapped by a
catch-all that logs the original error and throws the generic message
instead. -/
def loadFromGitHub (g : GithubEnv) (fetch : GithubFetch)
    (st : ManagerState) : Except String Unit × ManagerState :=
  match loadFromGitHubTry g fetch st with
  | (Except.ok (), st1) => (Except.ok (), st1)
  | (Except.error _, st1) => (Except.error githubGenericMsg, st1)

/-- The inputs `initialize` draws on: `NODE_ENV`, the local variables,
the GitHub variables and the outcome the remote fetch would have. -/
structure Env where
  NODE_ENV : Option String
  local_ : LocalEnv
  github : GithubEnv
  fetch : GithubFetch

/-- `SecretsManager.initialize`: returns immediately when already
initialized; otherwise selects the loader by `NODE_ENV === 'production'`
and sets `isInitialized` only after the loader returned without
throwing.  The third component records whether the underlying load
(environment read or remote fetch) was performed. -/
def initManager (env : Env) (st : ManagerState) :
    Except String Unit × ManagerState × Bool :=
  if st.isInitialized then (Except.ok (), st, false)
  else
    let r :=
      if env.NODE_ENV = some ("production") then
        loadFromGitHub env.github env.fetch st
      else
        loadFromEnv env.local_ st
    match r with
    | (Except.ok (), st1) =>
        (Except.ok (), { st1 with isInitialized := true }, true)
    | (Except.error e, st1) => (Except.error e, st1, true)

/-- The message of the error thrown by `getSecrets`/`getSecret` when
`this.secrets` is null. -/
def notInitializedMsg : String :=
  "Secrets not initialized. Call initialize() first."

/-- `SecretsManager.getSecrets`: throws when `this.secrets` is null,
otherwise returns the record.  Note the guard is the nullness of the
record, not the `isInitialized` flag. -/
def getSecretsOf (st : ManagerState) : Except String AppSecrets :=
  match st.secrets with
  | none => Except.error notInitializedMsg
  | some s => Except.ok s

/-- `SecretsManager.isReady`: `isInitialized && secrets !== null`. -/
def isReady (st : ManagerState) : Bool :=
  st.isInitialized && st.secrets.isSome

/-- The exported helper `getSecrets()`: initialize when not ready,
then read the record.  Threads the state; an initialization failure
propagates as the thrown error. -/
def getSecretsFn (env : Env) (st : ManagerState) :
    Except String AppSecrets × ManagerState :=
  if isReady st then (getSecretsOf st, st)
  else
    match initManager env st with
    | (Except.ok (), st1, _) => (getSecretsOf st1, st1)
    | (Except.error e, st1, _) => (Except.error e, st1)

/-- Whether every field of a record is non-empty. -/
def allFieldsNonEmpty (s : AppSecrets) : Bool :=
  !s.databaseUrl.isEmpty && !s.apiKey.isEmpty && !s.jwtSecret.isEmpty
    && !s.redisUrl.isEmpty && !s.stripeSecretKey.isEmpty

/-! ## The API-key gate (src/lib/apiKeyAuth.ts) -/

/-- JavaScript `s.startsWith(pre)`: prefix test on the characters. -/
def strStartsWith (s pre : String) : Bool :=
  List.isPrefixOf pre.data s.data

/-- JavaScript `s.substring(n)`: drop the first `n` characters. -/
def strDrop (s : String) (n : Nat) : String :=
  { data := s.data.drop n }

/-- Credential extraction in `validateApiKey`:
`authHeader?.startsWith('Bearer ') ? authHeader.substring(7) : apiKeyHeader`.
When the authorization header starts with the Bearer marker the rest of
that header is taken (even when empty); otherwise the `x-api-key`
header is taken (even when the authorization header is present but in
another scheme). -/
def extractApiKey (authHeader xApiKeyHeader : Option String) : Option String :=
  match authHeader with
  | some a =>
      if strStartsWith a ("Bearer ") then some (strDrop a 7) else xApiKeyHeader
  | none => xApiKeyHeader

/-- Outcome of `validateApiKey`: a rejection response (HTTP status and
message) or acceptance carrying the attached `apiKey` and `secrets` of
the authenticated request. -/
inductive GateResult where
  | rejected (status : Nat) (message : String)
  | accepted (apiKey : String) (secrets : AppSecrets)
deriving Repr, DecidableEq

/-- 401 message when no credential was supplied. -/
def missingKeyMsg : String :=
  "API key required. Use Authorization: Bearer <api-key> or X-API-Key header"

/-- 500 message when the configured key is empty. -/
def notConfiguredMsg : String := "API key not configured on server"

/-- 401 message when the supplied key does not match. -/
def invalidKeyMsg : String := "Invalid API key"

/-- 500 message produced by the catch-all of `validateApiKey`. -/
def internalErrMsg : String := "Internal server error during authentication"

/-- `validateApiKey`: extract the candidate credential; when it is
falsy (absent or empty) reject 401 without touching the store; only
otherwise call `getSecrets()` (possibly triggering initialization),
then check the configured key for emptiness (500), compare by exact
string equality (401 on mismatch) and accept on equality.  A thrown
initialization error is caught and turned into a generic 500.  The
third component records whether `getSecrets()` was invoked. -/
def validateApiKey (authHeader xApiKeyHeader : Option String) (env : Env)
    (st : ManagerState) : GateResult × ManagerState × Bool :=
  match extractApiKey authHeader xApiKeyHeader with
  | none => (GateResult.rejected 401 missingKeyMsg, st, false)
  | some key =>
    if key.isEmpty then (GateResult.rejected 401 missingKeyMsg, st, false)
    else
      match getSecretsFn env st with
      | (Except.ok secrets, st1) =>
          if secrets.apiKey.isEmpty then
            (GateResult.rejected 500 notConfiguredMsg, st1, true)
          else if key = secrets.apiKey then
            (GateResult.accepted key secrets, st1, true)
          else
            (GateResult.rejected 401 invalidKeyMsg, st1, true)
      | (Except.error _, st1) =>
          (GateResult.rejected 500 internalErrMsg, st1, true)

/-- An HTTP response: status code and serialized JSON body. -/
structure Response where
  status : Nat
  body : String
deriving Repr, DecidableEq

/-- The JSON error body `NextResponse.json({status:'error', message})`
produced for gate rejections. -/
def mkErrorBody (message : String) : String :=
  "\x7b\"status\":\"error\",\"message\":\"" ++ message ++ "\"\x7d"

/-- `withApiKeyAuth`: run `validateApiKey` and either return the
rejection response or invoke the wrapped handler on the authenticated
context (credential and secrets). -/
def withApiKeyAuth (handler : String → AppSecrets → Response)
    (authHeader xApiKeyHeader : Option String) (env : Env)
    (st : ManagerState) : Response × ManagerState :=
  match validateApiKey authHeader xApiKeyHeader env st with
  | (GateResult.accepted key secrets, st1, _) => (handler key secrets, st1)
  | (GateResult.rejected status msg, st1, _) =>
      ({ status := status, body := mkErrorBody msg }, st1)

/-! ## Substring occurrence -/

/-- Whether `needle` occurs as a contiguous subsequence of `hay`. -/
def containsSeq : List Char → List Char → Bool
  | n, [] => n.isEmpty
  | n, h :: t => List.isPrefixOf n (h :: t) || containsSeq n t

/-- Whether string `needle` occurs as a substring of `hay`. -/
def occursIn (needle hay : String) : Bool :=
  containsSeq needle.data hay.data

/-! ## The status endpoint (src/app/api/secrets/route.ts) -/

/-- The per-field indicator of the GET handler:
`value ? '✅ Configured' : '❌ Missing'`. -/
def configuredMark (v : String) : String :=
  if v.isEmpty then ("❌ Missing") else ("✅ Configured")

/-- The serialized 200-response body of the GET handler for a given
record, `NODE_ENV` string and timestamp: only the five indicators, the
environment name and the timestamp, in `JSON.stringify` insertion
order. -/
def statusBody (s : AppSecrets) (environment timestamp : String) : String :=
  "\x7b\"status\":\"success\",\"message\":\"Secrets are properly configured\",\"secretsConfigured\":\x7b\"databaseUrl\":\""
  ++ configuredMark s.databaseUrl
  ++ "\",\"apiKey\":\"" ++ configuredMark s.apiKey
  ++ "\",\"jwtSecret\":\"" ++ configuredMark s.jwtSecret
  ++ "\",\"redisUrl\":\"" ++ configuredMark s.redisUrl
  ++ "\",\"stripeSecretKey\":\"" ++ configuredMark s.stripeSecretKey
  ++ "\"\x7d,\"environment\":\"" ++ environment
  ++ "\",\"timestamp\":\"" ++ timestamp ++ "\"\x7d"

/-- The fixed text of a fully-configured status response: what
`statusBody` produces for any record whose fields are all non-empty.
Stated from the spec side for comparison: it does not depend on the
record. -/
def statusTemplate (environment timestamp : String) : String :=
  "\x7b\"status\":\"success\",\"message\":\"Secrets are properly configured\",\"secretsConfigured\":\x7b\"databaseUrl\":\"✅ Configured\",\"apiKey\":\"✅ Configured\",\"jwtSecret\":\"✅ Configured\",\"redisUrl\":\"✅ Configured\",\"stripeSecretKey\":\"✅ Configured\"\x7d,\"environment\":\""
  ++ environment ++ "\",\"timestamp\":\"" ++ timestamp ++ "\"\x7d"

/-- JavaScript `s.substring(0, n)`: the first `n` characters (fewer
when the string is shorter). -/
def strTake (s : String) (n : Nat) : String :=
  { data := s.data.take n }

/-- The token built by the POST handler for action `authenticate`:
`jwt_token_using_${secrets.jwtSecret.substring(0, 8)}...`. -/
def authToken (s : AppSecrets) : String :=
  "jwt_token_using_" ++ strTake s.jwtSecret 8 ++ "..."

/-- The serialized 200-response body of the POST handler for action
`authenticate`. -/
def postAuthBody (s : AppSecrets) : String :=
  "\x7b\"status\":\"success\",\"message\":\"Authentication successful\",\"token\":\""
  ++ authToken s ++ "\"\x7d"

/-! ## Helper lemmas -/

theorem isPrefixOf_append_self (n rest : List Char) :
    List.isPrefixOf n (n ++ rest) = true := by
  induction n with
  | nil => simp [List.isPrefixOf]
  | cons a as ih => simp [List.isPrefixOf, ih]

theorem containsSeq_nil_left (hay : List Char) : containsSeq [] hay = true := by
  cases hay with
  | nil => rfl
  | cons h t => simp [containsSeq, List.isPrefixOf]

theorem containsSeq_self_append (n q : List Char) :
    containsSeq n (n ++ q) = true := by
  cases n with
  | nil => simpa using containsSeq_nil_left q
  | cons a as =>
      simp [containsSeq, isPrefixOf_append_self]

theorem containsSeq_append_left (n q p : List Char)
    (h : containsSeq n q = true) : containsSeq n (p ++ q) = true := by
  induction p with
  | nil => simpa using h
  | cons a t ih => simp [containsSeq, ih]

theorem string_data_append (a b : String) : (a ++ b).data = a.data ++ b.data := rfl

/-- A string occurs in any surrounding concatenation. -/
theorem occursIn_append_middle (v a b : String) :
    occursIn v (a ++ v ++ b) = true := by
  unfold occursIn
  rw [string_data_append, string_data_append, List.append_assoc]
  exact containsSeq_append_left _ _ _ (containsSeq_self_append _ _)

/-- Emptiness of the missing-fields list coincides with all fields of
the built record being non-empty. -/
theorem missingSecrets_isEmpty (e : LocalEnv) :
    (missingSecrets e).isEmpty = allFieldsNonEmpty (envRecord e) := by
  unfold missingSecrets secretsEntries allFieldsNonEmpty
  cases h1 : (envRecord e).databaseUrl.isEmpty <;>
  cases h2 : (envRecord e).apiKey.isEmpty <;>
  cases h3 : (envRecord e).jwtSecret.isEmpty <;>
  cases h4 : (envRecord e).redisUrl.isEmpty <;>
  cases h5 : (envRecord e).stripeSecretKey.isEmpty <;>
  simp [List.filter, h1, h2, h3, h4, h5]

/-- Membership in the missing-fields list characterizes exactly the
empty fields of the built record. -/
theorem mem_missingSecrets (e : LocalEnv) (n : String) :
    n ∈ missingSecrets e ↔
      ((n = "databaseUrl" ∧ (envRecord e).databaseUrl = "") ∨
       (n = "apiKey" ∧ (envRecord e).apiKey = "") ∨
       (n = "jwtSecret" ∧ (envRecord e).jwtSecret = "") ∨
       (n = "redisUrl" ∧ (envRecord e).redisUrl = "") ∨
       (n = "stripeSecretKey" ∧ (envRecord e).stripeSecretKey = "")) := by
  unfold missingSecrets secretsEntries
  simp [List.mem_filter, String.isEmpty_iff]
  tauto

/-! ## Concrete fixtures -/

def noGithub : GithubEnv :=
  { GITHUB_TOKEN := none, GITHUB_REPO_OWNER := none,
    GITHUB_REPO_NAME := none, GITHUB_SECRETS_PATH := none }

def noFetch : GithubFetch := Except.error ("network unreachable")

def emptyLocalEnv : LocalEnv :=
  { DATABASE_URL := none, API_KEY := none, JWT_SECRET := none,
    REDIS_URL := none, STRIPE_SECRET_KEY := none }

def fullLocalEnv : LocalEnv :=
  { DATABASE_URL := some ("pg://db"), API_KEY := some ("K1"),
    JWT_SECRET := some ("jwtsec"), REDIS_URL := some ("redis://r"),
    STRIPE_SECRET_KEY := some ("sk_live") }

def devEnvAllMissing : Env :=
  { NODE_ENV := some ("development"), local_ := emptyLocalEnv,
    github := noGithub, fetch := noFetch }

def devEnvFull : Env :=
  { NODE_ENV := some ("development"), local_ := fullLocalEnv,
    github := noGithub, fetch := noFetch }

/-! ## Claims -/

/-- C1: the spec demands that `getSecrets()` fail with
`NotInitializedError` whenever the ready flag is false, in particular
after a local-mode initialization that failed on missing fields.  The
code violates this: `loadFromEnv` assigns `this.secrets` before
validating, and `getSecrets` guards only on the nullness of
`this.secrets`, so after the failed initialization (ready still false)
`getSecrets` returns the all-empty record instead of throwing. -/
theorem c1_failed_init_getSecrets_returns_record :
    (initManager devEnvAllMissing initialManagerState).1
        = Except.error (missingSecretsMsg
            ["databaseUrl", "apiKey", "jwtSecret", "redisUrl", "stripeSecretKey"]) ∧
    isReady (initManager devEnvAllMissing initialManagerState).2.1 = false ∧
    getSecretsOf (initManager devEnvAllMissing initialManagerState).2.1
        = Except.ok { databaseUrl := "", apiKey := "", jwtSecret := "",
                      redisUrl := "", stripeSecretKey := "" } :=
  ⟨rfl, rfl, rfl⟩

def prodGithub : GithubEnv :=
  { GITHUB_TOKEN := some ("tok"), GITHUB_REPO_OWNER := some ("owner"),
    GITHUB_REPO_NAME := some ("repo"), GITHUB_SECRETS_PATH := none }

def emptyApiKeyRecord : AppSecrets :=
  { databaseUrl := "db", apiKey := "", jwtSecret := "jwt",
    redisUrl := "redis", stripeSecretKey := "stripe" }

def prodEnvEmptyApiKey : Env :=
  { NODE_ENV := some ("production"), local_ := emptyLocalEnv,
    github := prodGithub, fetch := Except.ok (some (Except.ok emptyApiKeyRecord)) }

/-- C2 counterexample: in remote mode the fetched record is stored
without any validation, so `initialize()` can return successfully while
a field (here `apiKey`) is empty. -/
theorem c2_counterexample :
    (initManager prodEnvEmptyApiKey initialManagerState).1 = Except.ok () ∧
    (initManager prodEnvEmptyApiKey initialManagerState).2.1.secrets
        = some emptyApiKeyRecord ∧
    allFieldsNonEmpty emptyApiKeyRecord = false :=
  ⟨rfl, rfl, rfl⟩

/-- C2 amended: in local mode only, a successful `initialize()` from a
fresh state leaves a stored record all of whose fields are non-empty. -/
theorem c2_local_mode_invariant (env : Env) (st : ManagerState)
    (hmode : env.NODE_ENV ≠ some ("production"))
    (hfresh : st.isInitialized = false)
    (hok : (initManager env st).1 = Except.ok ()) :
    ∃ s, (initManager env st).2.1.secrets = some s
      ∧ allFieldsNonEmpty s = true := by
  unfold initManager at hok ⊢
  rw [hfresh] at hok ⊢
  rw [if_neg hmode] at hok ⊢
  unfold loadFromEnv at hok ⊢
  cases hm : (missingSecrets env.local_).isEmpty with
  | false => simp [hm] at hok
  | true =>
      refine ⟨envRecord env.local_, ?_, ?_⟩
      · simp [hm]
      · rw [← missingSecrets_isEmpty]
        exact hm

/-- C2 amended, witness at a fully-set local environment. -/
theorem c2_local_mode_invariant_witness :
    ∃ s, (initManager devEnvFull initialManagerState).2.1.secrets = some s
      ∧ allFieldsNonEmpty s = true :=
  c2_local_mode_invariant devEnvFull initialManagerState (by decide) rfl rfl

def ownerOnlyGithub : GithubEnv :=
  { GITHUB_TOKEN := none, GITHUB_REPO_OWNER := some ("owner"),
    GITHUB_REPO_NAME := some ("repo"), GITHUB_SECRETS_PATH := none }

def prodEnvOwnerOnly : Env :=
  { NODE_ENV := some ("production"), local_ := emptyLocalEnv,
    github := ownerOnlyGithub, fetch := noFetch }

/-- C3 counterexample: with only the token absent, the error that
`initialize()` propagates carries the generic catch-all message, which
does not name the missing `GITHUB_TOKEN` at all, while the inner
message (swallowed by the catch and only logged) names
`GITHUB_REPO_OWNER` even though the owner is present — so the failure
message never names exactly the absent parameters. -/
theorem c3_counterexample :
    (initManager prodEnvOwnerOnly initialManagerState).1
        = Except.error githubGenericMsg ∧
    occursIn ("GITHUB_TOKEN") githubGenericMsg = false ∧
    occursIn ("GITHUB_REPO_OWNER") githubMissingMsg = true :=
  ⟨rfl, by decide, by decide⟩

/-- C3 amended: whenever any of the three required parameters is falsy,
the `try` block throws a single fixed message naming all three
parameters, and the catch-all replaces it with the generic
initialization-failure message that reaches the caller. -/
theorem c3_param_check (g : GithubEnv) (fetch : GithubFetch)
    (st : ManagerState)
    (h : (jsFalsy g.GITHUB_TOKEN || jsFalsy g.GITHUB_REPO_OWNER
          || jsFalsy g.GITHUB_REPO_NAME) = true) :
    loadFromGitHubTry g fetch st = (Except.error githubMissingMsg, st) ∧
    loadFromGitHub g fetch st = (Except.error githubGenericMsg, st) := by
  unfold loadFromGitHub loadFromGitHubTry
  rw [if_pos h]
  exact ⟨rfl, rfl⟩

/-- C3 amended, witness: token absent, owner and repo present. -/
theorem c3_param_check_witness :
    loadFromGitHub ownerOnlyGithub noFetch initialManagerState
      = (Except.error githubGenericMsg, initialManagerState) :=
  (c3_param_check ownerOnlyGithub noFetch initialManagerState (by decide)).2

/-- C8: when at least one local field is missing, `loadFromEnv` fails
with a message listing the whole missing-fields list, and that list
contains a name precisely when the corresponding field of the built
record is empty — all N missing names are reported, not just the
first. -/
theorem c8_missing_report (e : LocalEnv) (st : ManagerState)
    (h : missingSecrets e ≠ []) :
    (loadFromEnv e st).1 = Except.error
        ("Missing required secrets: "
          ++ String.intercalate (", ") (missingSecrets e)) ∧
    ∀ n, n ∈ missingSecrets e ↔
      ((n = "databaseUrl" ∧ (envRecord e).databaseUrl = "") ∨
       (n = "apiKey" ∧ (envRecord e).apiKey = "") ∨
       (n = "jwtSecret" ∧ (envRecord e).jwtSecret = "") ∨
       (n = "redisUrl" ∧ (envRecord e).redisUrl = "") ∨
       (n = "stripeSecretKey" ∧ (envRecord e).stripeSecretKey = "")) := by
  have hb : (missingSecrets e).isEmpty = false := by
    cases hm : missingSecrets e with
    | nil => exact absurd hm h
    | cons a t => rfl
  refine ⟨?_, fun n => mem_missingSecrets e n⟩
  unfold loadFromEnv
  simp [hb, missingSecretsMsg]

def twoMissingEnv : LocalEnv :=
  { DATABASE_URL := some ("pg://db"), API_KEY := none,
    JWT_SECRET := some ("jwtsec"), REDIS_URL := none,
    STRIPE_SECRET_KEY := some ("sk_live") }

/-- C8 witness: with exactly `API_KEY` and `REDIS_URL` unset, the
thrown message enumerates both names. -/
theorem c8_missing_report_witness :
    (loadFromEnv twoMissingEnv initialManagerState).1
      = Except.error ("Missing required secrets: apiKey, redisUrl") :=
  (c8_missing_report twoMissingEnv initialManagerState (by decide)).1

/-- Shared helper: a falsy extracted credential makes `validateApiKey`
return the 401 missing-credential rejection immediately, with the
store untouched and `getSecrets()` never invoked. -/
theorem validate_missing_of_falsy (authHeader xApiKeyHeader : Option String)
    (env : Env) (st : ManagerState)
    (h : jsFalsy (extractApiKey authHeader xApiKeyHeader) = true) :
    validateApiKey authHeader xApiKeyHeader env st
      = (GateResult.rejected 401 missingKeyMsg, st, false) := by
  unfold validateApiKey
  cases hx : extractApiKey authHeader xApiKeyHeader with
  | none => rfl
  | some key =>
      rw [hx] at h
      simp only [jsFalsy] at h
      simp [h]

/-- C7: from a fresh (not yet initialized) state, a successful first
`initialize()` performs the underlying load, and a second call returns
immediately: no error, no load, and the state unchanged. -/
theorem c7_init_idempotent (env : Env) (st : ManagerState)
    (hfresh : st.isInitialized = false)
    (hok : (initManager env st).1 = Except.ok ()) :
    (initManager env st).2.2 = true ∧
    initManager env (initManager env st).2.1
      = (Except.ok (), (initManager env st).2.1, false) := by
  have h0 : ¬ (st.isInitialized = true) := by simp [hfresh]
  unfold initManager at hok ⊢
  rw [if_neg h0] at hok ⊢
  rcases hsplit : (if env.NODE_ENV = some ("production") then
      loadFromGitHub env.github env.fetch st
    else
      loadFromEnv env.local_ st) with ⟨r, st1⟩
  rw [hsplit] at hok
  cases r with
  | error e => simp at hok
  | ok u =>
      cases u
      refine ⟨rfl, ?_⟩
      rfl

/-- C7 witness: fully-set local environment, fresh state. -/
theorem c7_init_idempotent_witness :
    (initManager devEnvFull initialManagerState).2.2 = true ∧
    initManager devEnvFull (initManager devEnvFull initialManagerState).2.1
      = (Except.ok (), (initManager devEnvFull initialManagerState).2.1, false) :=
  c7_init_idempotent devEnvFull initialManagerState rfl rfl

/-- C6: when the extraction yields no non-empty credential, the gate
rejects with the 401 missing-credential response, leaves the store
state unchanged and never invokes `getSecrets()` (third component
`false`), so no configuration load is triggered. -/
theorem c6_missing_credential_no_fetch (authHeader xApiKeyHeader : Option String)
    (env : Env) (st : ManagerState)
    (h : jsFalsy (extractApiKey authHeader xApiKeyHeader) = true) :
    validateApiKey authHeader xApiKeyHeader env st
      = (GateResult.rejected 401 missingKeyMsg, st, false) :=
  validate_missing_of_falsy authHeader xApiKeyHeader env st h

/-- C6 witness: no credential headers at all. -/
theorem c6_missing_credential_no_fetch_witness :
    validateApiKey none none devEnvFull initialManagerState
      = (GateResult.rejected 401 missingKeyMsg, initialManagerState, false) :=
  c6_missing_credential_no_fetch none none devEnvFull initialManagerState rfl

/-- C4 counterexample: a request whose authorization header is exactly
the Bearer marker with an empty token, but which carries a non-empty
`x-api-key` header, IS rejected as missing a credential — the code
never falls back to the second header once the Bearer marker matched. -/
theorem c4_counterexample :
    extractApiKey (some ("Bearer ")) (some ("K1")) = some ("") ∧
    validateApiKey (some ("Bearer ")) (some ("K1")) devEnvFull initialManagerState
      = (GateResult.rejected 401 missingKeyMsg, initialManagerState, false) :=
  ⟨by decide, by decide⟩

/-- C4 amended: the gate takes the Bearer remainder whenever the
authorization header starts with the Bearer marker (with no fallback,
even when the remainder is empty); the `x-api-key` header is used only
when the authorization header is absent or in another scheme; and the
401 missing-credential rejection happens exactly when the extracted
candidate is absent or empty. -/
theorem c4_extraction_no_fallback (authHeader xApiKeyHeader : Option String)
    (env : Env) (st : ManagerState) :
    (∀ a, authHeader = some a → strStartsWith a ("Bearer ") = true →
        extractApiKey authHeader xApiKeyHeader = some (strDrop a 7)) ∧
    (∀ a, authHeader = some a → strStartsWith a ("Bearer ") = false →
        extractApiKey authHeader xApiKeyHeader = xApiKeyHeader) ∧
    (authHeader = none → extractApiKey authHeader xApiKeyHeader = xApiKeyHeader) ∧
    (jsFalsy (extractApiKey authHeader xApiKeyHeader) = true ↔
        validateApiKey authHeader xApiKeyHeader env st
          = (GateResult.rejected 401 missingKeyMsg, st, false)) := by
  refine ⟨?_, ?_, ?_, ?_, ?_⟩
  · intro a ha hb; subst ha; simp [extractApiKey, hb]
  · intro a ha hb; subst ha; simp [extractApiKey, hb]
  · intro ha; subst ha; rfl
  · intro h; exact validate_missing_of_falsy authHeader xApiKeyHeader env st h
  · intro heq
    cases hx : extractApiKey authHeader xApiKeyHeader with
    | none => rfl
    | some key =>
        cases hke : key.isEmpty with
        | true => simp [jsFalsy, hx, hke]
        | false =>
            exfalso
            unfold validateApiKey at heq
            rw [hx] at heq
            simp only [hke, Bool.false_eq_true, if_false] at heq
            rcases hgs : getSecretsFn env st with ⟨r, st1⟩
            rw [hgs] at heq
            cases r with
            | error e => simp at heq
            | ok secrets =>
                by_cases hak : secrets.apiKey.isEmpty
                · simp [hak] at heq
                · by_cases hkey : key = secrets.apiKey
                  · simp [hak, hkey] at heq
                  · simp [hak, hkey] at heq

/-- C4 amended, witness: the Bearer remainder is preferred, another
scheme falls back to `x-api-key`, and an empty extracted candidate is
rejected as missing. -/
theorem c4_extraction_no_fallback_witness :
    extractApiKey (some ("Bearer K1")) (some ("X9")) = some ("K1") ∧
    extractApiKey (some ("Basic K1")) (some ("X9")) = some ("X9") ∧
    validateApiKey (some ("Bearer ")) (some ("X9")) devEnvFull initialManagerState
      = (GateResult.rejected 401 missingKeyMsg, initialManagerState, false) := by
  refine ⟨?_, ?_, ?_⟩
  · exact (c4_extraction_no_fallback (some ("Bearer K1")) (some ("X9"))
      devEnvFull initialManagerState).1 ("Bearer K1") rfl (by decide)
  · exact (c4_extraction_no_fallback (some ("Basic K1")) (some ("X9"))
      devEnvFull initialManagerState).2.1 ("Basic K1") rfl (by decide)
  · exact (c4_extraction_no_fallback (some ("Bearer ")) (some ("X9"))
      devEnvFull initialManagerState).2.2.2.mp (by decide)

/-- C5: with an initialized store holding record `s` whose configured
key is non-empty, and a non-empty extracted candidate `key`, the gate
accepts exactly when `key` equals the configured key: on a match the
wrapped handler runs on the context carrying the supplied key and the
stored record, and on a mismatch the gate returns the 401 invalid-key
response without invoking any handler. -/
theorem c5_gate_exact_match (key : String) (s : AppSecrets)
    (st : ManagerState) (env : Env) (authHeader xApiKeyHeader : Option String)
    (hx : extractApiKey authHeader xApiKeyHeader = some key)
    (hk : key ≠ "")
    (hready : isReady st = true)
    (hs : st.secrets = some s)
    (hconf : s.apiKey ≠ "") :
    (key = s.apiKey →
      validateApiKey authHeader xApiKeyHeader env st
          = (GateResult.accepted key s, st, true) ∧
      ∀ handler, withApiKeyAuth handler authHeader xApiKeyHeader env st
          = (handler key s, st)) ∧
    (key ≠ s.apiKey →
      validateApiKey authHeader xApiKeyHeader env st
          = (GateResult.rejected 401 invalidKeyMsg, st, true) ∧
      ∀ handler, withApiKeyAuth handler authHeader xApiKeyHeader env st
          = ({ status := 401, body := mkErrorBody invalidKeyMsg }, st)) := by
  have hgs : getSecretsFn env st = (Except.ok s, st) := by
    unfold getSecretsFn
    rw [if_pos hready]
    unfold getSecretsOf
    rw [hs]
  have hke : key.isEmpty = false := by
    cases hkb : key.isEmpty with
    | false => rfl
    | true => exact absurd ((String.isEmpty_iff key).mp hkb) hk
  have hcke : s.apiKey.isEmpty = false := by
    cases hkb : s.apiKey.isEmpty with
    | false => rfl
    | true => exact absurd ((String.isEmpty_iff s.apiKey).mp hkb) hconf
  constructor
  · intro hkeq
    have hval : validateApiKey authHeader xApiKeyHeader env st
        = (GateResult.accepted key s, st, true) := by
      simp [validateApiKey, hx, hgs, hke, hcke, hkeq]
    refine ⟨hval, fun handler => ?_⟩
    unfold withApiKeyAuth
    rw [hval]
  · intro hkne
    have hval : validateApiKey authHeader xApiKeyHeader env st
        = (GateResult.rejected 401 invalidKeyMsg, st, true) := by
      simp [validateApiKey, hx, hgs, hke, hcke, hkne]
    refine ⟨hval, fun handler => ?_⟩
    unfold withApiKeyAuth
    rw [hval]

def configuredRecord : AppSecrets :=
  { databaseUrl := "pg://db", apiKey := "K1", jwtSecret := "jwtsec",
    redisUrl := "redis://r", stripeSecretKey := "sk_live" }

def readyState : ManagerState :=
  { secrets := some configuredRecord, isInitialized := true }

/-- C5 witness: configured key K1, request bearing the matching Bearer
token; the handler sees the credential. -/
theorem c5_gate_exact_match_witness :
    validateApiKey (some ("Bearer K1")) none devEnvFull readyState
      = (GateResult.accepted ("K1") configuredRecord, readyState, true) ∧
    withApiKeyAuth (fun key _ => { status := 200, body := key })
        (some ("Bearer K1")) none devEnvFull readyState
      = ({ status := 200, body := "K1" }, readyState) := by
  have h := c5_gate_exact_match ("K1") configuredRecord readyState devEnvFull
    (some ("Bearer K1")) none (by decide) (by decide) (by decide) rfl (by decide)
  exact ⟨(h.1 rfl).1, (h.1 rfl).2 (fun key _ => { status := 200, body := key })⟩

set_option maxRecDepth 8000 in
/-- When every field is non-empty the status body is a fixed text that
does not depend on the secret values at all. -/
theorem statusBody_eq_template (s : AppSecrets) (environment timestamp : String)
    (hs : allFieldsNonEmpty s = true) :
    statusBody s environment timestamp = statusTemplate environment timestamp := by
  simp only [allFieldsNonEmpty, Bool.and_eq_true, Bool.not_eq_true'] at hs
  obtain ⟨⟨⟨⟨h1, h2⟩, h3⟩, h4⟩, h5⟩ := hs
  unfold statusBody statusTemplate configuredMark
  rw [h1, h2, h3, h4, h5]
  rfl

/-- C9: for a record with all fields configured, the serialized 200
status body equals the fixed template (field indicators, environment
name, timestamp only), hence any string absent from that fixed text —
in particular each secret value, barring collision with it — is absent
from the response body. -/
theorem c9_status_secrecy (s : AppSecrets) (environment timestamp : String)
    (hs : allFieldsNonEmpty s = true) :
    statusBody s environment timestamp = statusTemplate environment timestamp ∧
    ∀ v, occursIn v (statusTemplate environment timestamp) = false →
      occursIn v (statusBody s environment timestamp) = false := by
  have h := statusBody_eq_template s environment timestamp hs
  exact ⟨h, fun v hv => by rw [h]; exact hv⟩

set_option maxRecDepth 100000 in
/-- C9 witness: the configured api key K1 does not occur in the status
body built from the configured record. -/
theorem c9_status_secrecy_witness :
    occursIn ("K1") (statusBody configuredRecord ("production") ("2025-01-01T00:00:00.000Z")) = false :=
  (c9_status_secrecy configuredRecord ("production") ("2025-01-01T00:00:00.000Z")
    (by decide)).2 ("K1") (by decide)

/-- C10: implicit claim — the authenticate action builds its token by
embedding the first 8 characters of the jwtSecret verbatim, and that
prefix of the secret does occur as a substring of the serialized 200
response body. -/
theorem c10_auth_token_embeds_secret_prefix (s : AppSecrets) :
    authToken s = "jwt_token_using_" ++ strTake s.jwtSecret 8 ++ "..." ∧
    occursIn (strTake s.jwtSecret 8) (postAuthBody s) = true := by
  refine ⟨rfl, ?_⟩
  unfold postAuthBody authToken occursIn
  simp only [string_data_append, List.append_assoc]
  exact containsSeq_append_left _ _ _ (containsSeq_append_left _ _ _
    (containsSeq_self_append _ _))
